import Mathlib

/-!
Verification of the two build hooks of this repository
(src/java/test.py and src/java/spotless_apply.py) against their
natural-language specification.

Shallow embedding conventions:
  - A filesystem path is a list of components with the deepest component
    first, so the path /repo/app is the list ["app", "repo"] and the
    filesystem root is the empty list.  With this representation
    os.path.dirname is List.tail (dirnameP below) and
    os.path.join(dir, name) is (name :: dir).
  - The filesystem is an oracle fs : FsPath → Bool giving os.path.exists,
    and xok : FsPath → Bool gives os.access(·, os.X_OK).
  - shutil.which is an oracle sw : String → Option FsPath.
  - The child process of subprocess.run is an oracle
    runner : List String → FsPath → RunOutcome; runCmd translates the
    try/except dispatch of each script on that outcome.
  - The orchestrators return the exit status paired with the list of
    Events (root locations attempted, tool resolutions attempted,
    dry-run prints, process launches), one event per corresponding call
    in the Python source, so that claims of the form "never attempts X"
    and "launches no process" are statable.
-/

/-- Paths are reversed component lists: deepest component first, root is []. -/
abbrev FsPath := List String

/-- Rendering of os.path.dirname: the parent of the root is the root itself. -/
def dirnameP : FsPath → FsPath
  | [] => []
  | _ :: p => p

/-- Rendering of a path as a slash separated absolute string, used where the
Python code manipulates the joined path as a string (candidate strings and
command lists). -/
def pathToString (p : FsPath) : String :=
  "/" ++ String.intercalate "/" p.reverse

/-- Translation of candidate.lower().endswith((".bat", ".cmd")) from
test.py line 45: lowercase the string and test the two suffixes. -/
def endsWithDotBatCmd (s : String) : Bool :=
  let l := s.data.map Char.toLower
  ".bat".data.isSuffixOf l || ".cmd".data.isSuffixOf l

/-- Outcome of the subprocess.run call, abstracting the child process:
it either completes with its own exit status, or raises
FileNotFoundError, or is interrupted (KeyboardInterrupt), or raises some
other exception. -/
inductive RunOutcome where
  | completed (code : Int)
  | notFound
  | interrupted
  | otherError
deriving DecidableEq, Repr

/-- Observable operations of the orchestrators, one per call site in the
Python source: a root location attempt with a marker list, a tool
resolution attempt, the dry-run print of test.py, and a child process
launch. -/
inductive Event where
  | locate (markers : List String)
  | resolve (names : List String) (dir : FsPath)
  | dryPrint (cmd : List String) (cwd : FsPath)
  | launch (cmd : List String) (cwd : FsPath)
deriving DecidableEq, Repr

/-- MAVEN_MARKERS from both scripts. -/
def MAVEN_MARKERS : List String := ["pom.xml"]

/-- GRADLE_MARKERS from both scripts. -/
def GRADLE_MARKERS : List String := ["build.gradle", "build.gradle.kts"]

/-- MAVEN_WRAPPERS from both scripts. -/
def MAVEN_WRAPPERS : List String := ["mvnw", "mvnw.cmd", "mvn"]

/-- GRADLE_WRAPPERS from both scripts. -/
def GRADLE_WRAPPERS : List String := ["gradlew", "gradlew.bat", "gradle", "gradle.bat"]

/-- Inner for-loop of find_project_root_with: does any marker file exist
directly under cur? (os.path.exists(os.path.join(cur, m)) for some m). -/
def hasMarker (fs : FsPath → Bool) (markers : List String) (cur : FsPath) : Bool :=
  markers.any fun m => fs (m :: cur)

/-- Translation of find_project_root_with (identical in test.py lines
28-37 and spotless_apply.py lines 24-37): walk upward from cur; if any
marker exists under cur return cur; once the parent equals cur (only at
the root, []) return None.  The start argument is taken already
absolute, rendering os.path.abspath. -/
def find_project_root_with (fs : FsPath → Bool) (markers : List String) : FsPath → Option FsPath
  | [] => if hasMarker fs markers [] then some [] else none
  | c :: p =>
    if hasMarker fs markers (c :: p) then some (c :: p)
    else find_project_root_with fs markers p

/-- Fuel-indexed rendering of the unstructured while-True loop of
find_project_root_with: some r means the loop returned r within the
given number of iterations, none means the fuel ran out first. -/
def find_root_loop (fs : FsPath → Bool) (markers : List String) : Nat → FsPath → Option (Option FsPath)
  | 0, _ => none
  | fuel + 1, cur =>
    if hasMarker fs markers cur then some (some cur)
    else if dirnameP cur = cur then some none
    else find_root_loop fs markers fuel (dirnameP cur)

/-- Second loop of which_in_dir (identical in both scripts): first
candidate name that shutil.which resolves. -/
def pathPass (sw : String → Option FsPath) : List String → Option FsPath
  | [] => none
  | name :: rest =>
    match sw name with
    | some exe => some exe
    | none => pathPass sw rest

namespace TestPy

/-- Acceptance condition of the in-directory loop of which_in_dir in
test.py lines 43-46: the candidate exists and either carries the execute
bit or its lowercased path ends in .bat or .cmd. -/
def accept (fs xok : FsPath → Bool) (dirpath : FsPath) (name : String) : Bool :=
  let candidate := name :: dirpath
  fs candidate && (xok candidate || endsWithDotBatCmd (pathToString candidate))

/-- First loop of which_in_dir in test.py: first candidate accepted in
the directory, as an absolute path. -/
def localPass (fs xok : FsPath → Bool) (dirpath : FsPath) : List String → Option FsPath
  | [] => none
  | name :: rest =>
    if accept fs xok dirpath name then some (name :: dirpath)
    else localPass fs xok dirpath rest

/-- Translation of which_in_dir from test.py lines 39-52: the
in-directory pass over the whole list, then the PATH pass, then None. -/
def which_in_dir (fs xok : FsPath → Bool) (sw : String → Option FsPath)
    (names : List String) (dirpath : FsPath) : Option FsPath :=
  match localPass fs xok dirpath names with
  | some c => some c
  | none => pathPass sw names

/-- Translation of runCmd from test.py lines 54-68: the child's own
return code on completion, 127 on FileNotFoundError, 130 on
KeyboardInterrupt, 1 on any other exception. -/
def runCmd : RunOutcome → Int
  | .completed code => code
  | .notFound => 127
  | .interrupted => 130
  | .otherError => 1

/-- Translation of detect_and_run_tests from test.py lines 70-102,
instrumented with the list of operations attempted. -/
def detect_and_run_tests (fs xok : FsPath → Bool) (sw : String → Option FsPath)
    (runner : List String → FsPath → RunOutcome)
    (start : FsPath) (task : String) (dry_run : Bool) : Int × List Event :=
  match find_project_root_with fs MAVEN_MARKERS start with
  | some mroot =>
    match which_in_dir fs xok sw MAVEN_WRAPPERS mroot with
    | none => (127, [Event.locate MAVEN_MARKERS, Event.resolve MAVEN_WRAPPERS mroot])
    | some mvn =>
      let cmd := [pathToString mvn, task]
      if dry_run then
        (0, [Event.locate MAVEN_MARKERS, Event.resolve MAVEN_WRAPPERS mroot,
             Event.dryPrint cmd mroot])
      else
        (runCmd (runner cmd mroot),
         [Event.locate MAVEN_MARKERS, Event.resolve MAVEN_WRAPPERS mroot,
          Event.launch cmd mroot])
  | none =>
    match find_project_root_with fs GRADLE_MARKERS start with
    | some groot =>
      match which_in_dir fs xok sw GRADLE_WRAPPERS groot with
      | none => (127, [Event.locate MAVEN_MARKERS, Event.locate GRADLE_MARKERS,
                       Event.resolve GRADLE_WRAPPERS groot])
      | some gradle =>
        let cmd := [pathToString gradle, task]
        if dry_run then
          (0, [Event.locate MAVEN_MARKERS, Event.locate GRADLE_MARKERS,
               Event.resolve GRADLE_WRAPPERS groot, Event.dryPrint cmd groot])
        else
          (runCmd (runner cmd groot),
           [Event.locate MAVEN_MARKERS, Event.locate GRADLE_MARKERS,
            Event.resolve GRADLE_WRAPPERS groot, Event.launch cmd groot])
    | none => (0, [Event.locate MAVEN_MARKERS, Event.locate GRADLE_MARKERS])

end TestPy

namespace Spotless

/-- Acceptance condition of the in-directory loop of which_in_dir in
spotless_apply.py line 47: the candidate exists and carries the execute
bit.  There is no script-extension exception in this script. -/
def accept (fs xok : FsPath → Bool) (dirpath : FsPath) (name : String) : Bool :=
  let candidate := name :: dirpath
  fs candidate && xok candidate

/-- First loop of which_in_dir in spotless_apply.py. -/
def localPass (fs xok : FsPath → Bool) (dirpath : FsPath) : List String → Option FsPath
  | [] => none
  | name :: rest =>
    if accept fs xok dirpath name then some (name :: dirpath)
    else localPass fs xok dirpath rest

/-- Translation of which_in_dir from spotless_apply.py lines 39-54. -/
def which_in_dir (fs xok : FsPath → Bool) (sw : String → Option FsPath)
    (names : List String) (dirpath : FsPath) : Option FsPath :=
  match localPass fs xok dirpath names with
  | some c => some c
  | none => pathPass sw names

/-- Translation of runCmd from spotless_apply.py lines 56-66.  The
handlers cover FileNotFoundError (127) and Exception (1).  In Python a
KeyboardInterrupt is a BaseException but not an Exception, so it is
caught by neither handler and propagates out of runCmd; that escape is
rendered as none. -/
def runCmd : RunOutcome → Option Int
  | .completed code => some code
  | .notFound => some 127
  | .interrupted => none
  | .otherError => some 1

/-- Translation of main from spotless_apply.py lines 68-95, instrumented
with the list of operations attempted.  The first component is none when
an exception escapes runCmd (and hence main). -/
def main (fs xok : FsPath → Bool) (sw : String → Option FsPath)
    (runner : List String → FsPath → RunOutcome)
    (start : FsPath) : Option Int × List Event :=
  match find_project_root_with fs MAVEN_MARKERS start with
  | some mroot =>
    match which_in_dir fs xok sw MAVEN_WRAPPERS mroot with
    | none => (some 127, [Event.locate MAVEN_MARKERS, Event.resolve MAVEN_WRAPPERS mroot])
    | some mvn =>
      let cmd := [pathToString mvn, "spotless:apply"]
      (runCmd (runner cmd mroot),
       [Event.locate MAVEN_MARKERS, Event.resolve MAVEN_WRAPPERS mroot,
        Event.launch cmd mroot])
  | none =>
    match find_project_root_with fs GRADLE_MARKERS start with
    | some groot =>
      match which_in_dir fs xok sw GRADLE_WRAPPERS groot with
      | none => (some 127, [Event.locate MAVEN_MARKERS, Event.locate GRADLE_MARKERS,
                            Event.resolve GRADLE_WRAPPERS groot])
      | some gradle =>
        let cmd := [pathToString gradle, "spotlessApply"]
        (runCmd (runner cmd groot),
         [Event.locate MAVEN_MARKERS, Event.locate GRADLE_MARKERS,
          Event.resolve GRADLE_WRAPPERS groot, Event.launch cmd groot])
    | none => (some 0, [Event.locate MAVEN_MARKERS, Event.locate GRADLE_MARKERS])

end Spotless

/-- Claim C1: for every starting directory and directory tree, if a
marker exists in the ancestor at depth d above start and in no ancestor
at a shallower depth, the upward walk of find_project_root_with returns
exactly that ancestor: the closest ancestor containing any marker wins. -/
theorem find_project_root_with_closest (fs : FsPath → Bool) (markers : List String) :
    ∀ (start : FsPath) (d : Nat), d ≤ start.length →
      hasMarker fs markers (start.drop d) = true →
      (∀ e, e < d → hasMarker fs markers (start.drop e) = false) →
      find_project_root_with fs markers start = some (start.drop d) := by
  intro start
  induction start with
  | nil =>
    intro d hd hmark _
    have hd0 : d = 0 := Nat.le_zero.mp (by simpa using hd)
    subst hd0
    simpa [find_project_root_with] using hmark
  | cons c p ih =>
    intro d hd hmark hshallow
    cases d with
    | zero =>
      simp only [List.drop_zero] at hmark
      simp [find_project_root_with, hmark]
    | succ d =>
      have h0 : hasMarker fs markers (c :: p) = false := by
        simpa using hshallow 0 (Nat.succ_pos d)
      have hd' : d ≤ p.length := Nat.le_of_succ_le_succ (by simpa using hd)
      have hmark' : hasMarker fs markers (p.drop d) = true := by
        simpa using hmark
      have hshallow' : ∀ e, e < d → hasMarker fs markers (p.drop e) = false := by
        intro e he
        simpa using hshallow (e + 1) (Nat.succ_lt_succ he)
      simpa [find_project_root_with, h0] using ih d hd' hmark' hshallow'

/-- Witness for C1: in the tree where /repo contains pom.xml and the
walk starts at /repo/app, the marker sits at depth 1 and not at depth 0,
and the located root is /repo. -/
theorem find_project_root_with_closest_witness :
    find_project_root_with (fun p => p == ["pom.xml", "repo"]) MAVEN_MARKERS
      ["app", "repo"] = some ["repo"] := by
  have h := find_project_root_with_closest (fun p => p == ["pom.xml", "repo"])
    MAVEN_MARKERS ["app", "repo"] 1 (by decide) (by decide)
    (by intro e he; interval_cases e; decide)
  simpa using h

/-- Claim C9: find_project_root_with terminates for every starting path.
The dirname of a nonroot path is strictly shorter, and the while-True
loop of the source, run with fuel one more than the length of the start
path, returns (rather than exhausting its fuel) with the same result as
the structurally recursive translation. -/
theorem find_project_root_with_terminates (fs : FsPath → Bool) (markers : List String)
    (start : FsPath) :
    (∀ (c : String) (p : FsPath), (dirnameP (c :: p)).length < (c :: p).length) ∧
      find_root_loop fs markers (start.length + 1) start
        = some (find_project_root_with fs markers start) := by
  constructor
  · intro c p
    simp [dirnameP]
  · induction start with
    | nil =>
      by_cases h : hasMarker fs markers [] = true
      · simp [find_root_loop, find_project_root_with, h]
      · simp [find_root_loop, find_project_root_with, h, dirnameP]
    | cons c p ih =>
      by_cases h : hasMarker fs markers (c :: p) = true
      · simp [find_root_loop, find_project_root_with, h]
      · have hne : dirnameP (c :: p) ≠ c :: p := by
          intro hcontra
          have hlen := congrArg List.length hcontra
          simp [dirnameP] at hlen
        simp only [find_root_loop, find_project_root_with, h, if_false,
          Bool.false_eq_true, if_neg hne, dirnameP]
        simpa using ih

/-- First loop of which_in_dir in test.py returns the first accepted
candidate of the list, joined to the directory. -/
theorem testpy_localPass_eq_find (fs xok : FsPath → Bool) (dirpath : FsPath) :
    ∀ names, TestPy.localPass fs xok dirpath names
      = (names.find? (TestPy.accept fs xok dirpath)).map (fun n => n :: dirpath) := by
  intro names
  induction names with
  | nil => rfl
  | cons name rest ih =>
    by_cases h : TestPy.accept fs xok dirpath name = true
    · simp [TestPy.localPass, h]
    · simp only [Bool.not_eq_true] at h
      simp [TestPy.localPass, h, ih]

/-- First loop of which_in_dir in spotless_apply.py returns the first
accepted candidate of the list, joined to the directory. -/
theorem spotless_localPass_eq_find (fs xok : FsPath → Bool) (dirpath : FsPath) :
    ∀ names, Spotless.localPass fs xok dirpath names
      = (names.find? (Spotless.accept fs xok dirpath)).map (fun n => n :: dirpath) := by
  intro names
  induction names with
  | nil => rfl
  | cons name rest ih =>
    by_cases h : Spotless.accept fs xok dirpath name = true
    · simp [Spotless.localPass, h]
    · simp only [Bool.not_eq_true] at h
      simp [Spotless.localPass, h, ih]

/-- Claim C2: in both executables, whenever some candidate of the list
is acceptable inside the directory, which_in_dir returns an in-directory
candidate — the first acceptable one in list order — whatever the search
path oracle says about any candidate: the in-directory pass over the
whole list completes before any search-path lookup is consulted. -/
theorem which_in_dir_prefers_local :
    ∀ (fs xok : FsPath → Bool) (names : List String) (dirpath : FsPath),
      ((∃ n ∈ names, TestPy.accept fs xok dirpath n = true) →
        ∀ sw : String → Option FsPath,
          TestPy.which_in_dir fs xok sw names dirpath
            = (names.find? (TestPy.accept fs xok dirpath)).map (fun n => n :: dirpath)) ∧
      ((∃ n ∈ names, Spotless.accept fs xok dirpath n = true) →
        ∀ sw : String → Option FsPath,
          Spotless.which_in_dir fs xok sw names dirpath
            = (names.find? (Spotless.accept fs xok dirpath)).map (fun n => n :: dirpath)) := by
  intro fs xok names dirpath
  constructor
  · rintro ⟨n, hn, ha⟩ sw
    have hsome : (names.find? (TestPy.accept fs xok dirpath)).isSome :=
      List.find?_isSome.mpr ⟨n, hn, ha⟩
    obtain ⟨m, hm⟩ := Option.isSome_iff_exists.mp hsome
    simp [TestPy.which_in_dir, testpy_localPass_eq_find, hm]
  · rintro ⟨n, hn, ha⟩ sw
    have hsome : (names.find? (Spotless.accept fs xok dirpath)).isSome :=
      List.find?_isSome.mpr ⟨n, hn, ha⟩
    obtain ⟨m, hm⟩ := Option.isSome_iff_exists.mp hsome
    simp [Spotless.which_in_dir, spotless_localPass_eq_find, hm]

/-- Witness for C2: mvn exists (and is executable) inside /repo while
mvnw, earlier in the list, exists only on the search path; both
resolvers nevertheless return the in-directory /repo/mvn. -/
theorem which_in_dir_prefers_local_witness :
    TestPy.which_in_dir (fun p => p == ["mvn", "repo"]) (fun p => p == ["mvn", "repo"])
      (fun n => if n == "mvnw" then some ["mvnw", "bin", "usr"] else none)
      ["mvnw", "mvn"] ["repo"] = some ["mvn", "repo"] ∧
    Spotless.which_in_dir (fun p => p == ["mvn", "repo"]) (fun p => p == ["mvn", "repo"])
      (fun n => if n == "mvnw" then some ["mvnw", "bin", "usr"] else none)
      ["mvnw", "mvn"] ["repo"] = some ["mvn", "repo"] :=
  ⟨((which_in_dir_prefers_local (fun p => p == ["mvn", "repo"]) (fun p => p == ["mvn", "repo"])
      ["mvnw", "mvn"] ["repo"]).1 ⟨"mvn", by decide, by decide⟩
      (fun n => if n == "mvnw" then some ["mvnw", "bin", "usr"] else none)).trans (by decide),
   ((which_in_dir_prefers_local (fun p => p == ["mvn", "repo"]) (fun p => p == ["mvn", "repo"])
      ["mvnw", "mvn"] ["repo"]).2 ⟨"mvn", by decide, by decide⟩
      (fun n => if n == "mvnw" then some ["mvnw", "bin", "usr"] else none)).trans (by decide)⟩

/-- Claim C3 counterexample: in spotless_apply.py the in-directory pass
rejects an existing /mvnw.cmd that lacks the execute bit (the script has
no .bat/.cmd exception), so with an empty search path the resolver
returns nothing instead of accepting the script file. -/
theorem which_in_dir_script_extension_counterexample :
    Spotless.localPass (fun p => p == ["mvnw.cmd"]) (fun _ => false) [] ["mvnw.cmd"] = none ∧
    Spotless.which_in_dir (fun p => p == ["mvnw.cmd"]) (fun _ => false) (fun _ => none)
      ["mvnw.cmd"] [] ≠ some ["mvnw.cmd"] := by
  decide

/-- Claim C3 (amended): only test.py exempts .bat/.cmd names from the
execute-bit requirement in the in-directory pass; spotless_apply.py
requires the execute bit for every name, extension notwithstanding, and
falls through to the search-path pass, as test.py itself does for a
non-script name without the execute bit. -/
theorem which_in_dir_script_extension :
    ∀ (fs xok : FsPath → Bool) (sw : String → Option FsPath) (dirpath : FsPath) (name : String),
      (fs (name :: dirpath) = true →
        endsWithDotBatCmd (pathToString (name :: dirpath)) = true →
        TestPy.which_in_dir fs xok sw [name] dirpath = some (name :: dirpath)) ∧
      (fs (name :: dirpath) = true → xok (name :: dirpath) = false →
        Spotless.which_in_dir fs xok sw [name] dirpath = pathPass sw [name]) ∧
      (fs (name :: dirpath) = true → xok (name :: dirpath) = false →
        endsWithDotBatCmd (pathToString (name :: dirpath)) = false →
        TestPy.which_in_dir fs xok sw [name] dirpath = pathPass sw [name]) := by
  intro fs xok sw dirpath name
  refine ⟨fun hfs hext => ?_, fun hfs hx => ?_, fun hfs hx hext => ?_⟩
  · simp [TestPy.which_in_dir, TestPy.localPass, TestPy.accept, hfs, hext]
  · simp [Spotless.which_in_dir, Spotless.localPass, Spotless.accept, hfs, hx]
  · simp [TestPy.which_in_dir, TestPy.localPass, TestPy.accept, hfs, hx, hext]

/-- Witness for the amended C3: /repo/mvnw.cmd without the execute bit
is accepted by the test.py resolver and skipped by the spotless_apply.py
resolver, and /repo/mvn without the execute bit is skipped by the
test.py resolver. -/
theorem which_in_dir_script_extension_witness :
    TestPy.which_in_dir (fun p => p == ["mvnw.cmd", "repo"]) (fun _ => false) (fun _ => none)
      ["mvnw.cmd"] ["repo"] = some ["mvnw.cmd", "repo"] ∧
    Spotless.which_in_dir (fun p => p == ["mvnw.cmd", "repo"]) (fun _ => false) (fun _ => none)
      ["mvnw.cmd"] ["repo"] = pathPass (fun _ => none) ["mvnw.cmd"] ∧
    TestPy.which_in_dir (fun p => p == ["mvn", "repo"]) (fun _ => false) (fun _ => none)
      ["mvn"] ["repo"] = pathPass (fun _ => none) ["mvn"] :=
  ⟨(which_in_dir_script_extension (fun p => p == ["mvnw.cmd", "repo"]) (fun _ => false)
      (fun _ => none) ["repo"] "mvnw.cmd").1 (by decide) (by decide),
   (which_in_dir_script_extension (fun p => p == ["mvnw.cmd", "repo"]) (fun _ => false)
      (fun _ => none) ["repo"] "mvnw.cmd").2.1 (by decide) (by decide),
   (which_in_dir_script_extension (fun p => p == ["mvn", "repo"]) (fun _ => false)
      (fun _ => none) ["repo"] "mvn").2.2 (by decide) (by decide) (by decide)⟩

/-- Claim C4 counterexample: with a Maven root at /, an executable
/mvnw, and a child process that is interrupted, spotless_apply.py does
not report exit status 130: its run_cmd handlers (FileNotFoundError and
Exception) do not cover KeyboardInterrupt, so the interrupt escapes. -/
theorem interrupt_status_counterexample :
    (Spotless.main (fun p => p == ["pom.xml"] || p == ["mvnw"]) (fun p => p == ["mvnw"])
      (fun _ => none) (fun _ _ => RunOutcome.interrupted) []).1 ≠ some 130 := by
  decide

/-- Claim C4 (amended): a user interrupt during the child process yields
exit status 130 in test.py only; in spotless_apply.py the
KeyboardInterrupt is caught by neither run_cmd handler, so no status is
returned — the exception propagates out of run_cmd and main. -/
theorem interrupt_status :
    ∀ (fs xok : FsPath → Bool) (sw : String → Option FsPath)
      (runner : List String → FsPath → RunOutcome) (start : FsPath) (task : String)
      (mroot mvn : FsPath),
      TestPy.runCmd RunOutcome.interrupted = 130 ∧
      Spotless.runCmd RunOutcome.interrupted = none ∧
      (find_project_root_with fs MAVEN_MARKERS start = some mroot →
        TestPy.which_in_dir fs xok sw MAVEN_WRAPPERS mroot = some mvn →
        runner [pathToString mvn, task] mroot = RunOutcome.interrupted →
        (TestPy.detect_and_run_tests fs xok sw runner start task false).1 = 130) ∧
      (find_project_root_with fs MAVEN_MARKERS start = some mroot →
        Spotless.which_in_dir fs xok sw MAVEN_WRAPPERS mroot = some mvn →
        runner [pathToString mvn, "spotless:apply"] mroot = RunOutcome.interrupted →
        (Spotless.main fs xok sw runner start).1 = none) := by
  intro fs xok sw runner start task mroot mvn
  refine ⟨rfl, rfl, fun h1 h2 h3 => ?_, fun h1 h2 h3 => ?_⟩
  · simp [TestPy.detect_and_run_tests, h1, h2, h3, TestPy.runCmd]
  · simp [Spotless.main, h1, h2, h3, Spotless.runCmd]

/-- Witness for the amended C4: in the concrete tree with a Maven root
at / and executable /mvnw, an interrupted child gives status 130 from
test.py and no returned status from spotless_apply.py. -/
theorem interrupt_status_witness :
    (TestPy.detect_and_run_tests (fun p => p == ["pom.xml"] || p == ["mvnw"])
      (fun p => p == ["mvnw"]) (fun _ => none) (fun _ _ => RunOutcome.interrupted)
      [] "test" false).1 = 130 ∧
    (Spotless.main (fun p => p == ["pom.xml"] || p == ["mvnw"]) (fun p => p == ["mvnw"])
      (fun _ => none) (fun _ _ => RunOutcome.interrupted) []).1 = none :=
  ⟨(interrupt_status (fun p => p == ["pom.xml"] || p == ["mvnw"]) (fun p => p == ["mvnw"])
      (fun _ => none) (fun _ _ => RunOutcome.interrupted) [] "test" [] ["mvnw"]).2.2.1
      (by decide) (by decide) (by decide),
   (interrupt_status (fun p => p == ["pom.xml"] || p == ["mvnw"]) (fun p => p == ["mvnw"])
      (fun _ => none) (fun _ _ => RunOutcome.interrupted) [] "test" [] ["mvnw"]).2.2.2
      (by decide) (by decide) (by decide)⟩

/-- With no marker at any depth along the walk, find_project_root_with
returns None. -/
theorem find_project_root_with_none (fs : FsPath → Bool) (markers : List String) :
    ∀ start : FsPath,
      (∀ d, d ≤ start.length → hasMarker fs markers (start.drop d) = false) →
      find_project_root_with fs markers start = none := by
  intro start
  induction start with
  | nil =>
    intro h
    have h0 : hasMarker fs markers [] = false := by simpa using h 0 (Nat.le_refl 0)
    simp [find_project_root_with, h0]
  | cons c p ih =>
    intro h
    have h0 : hasMarker fs markers (c :: p) = false := by
      simpa using h 0 (Nat.zero_le _)
    have h' : ∀ d, d ≤ p.length → hasMarker fs markers (p.drop d) = false := by
      intro d hd
      simpa using h (d + 1) (Nat.succ_le_succ hd)
    simp [find_project_root_with, h0, ih h']

/-- Claim C5: when Maven markers locate a root but no Maven tool
candidate resolves, both orchestrators stop with exit status 127, and
their operation trace ends at the Maven resolution attempt: no Gradle
root location, no Gradle tool resolution, no process launch. -/
theorem maven_tool_missing_aborts :
    ∀ (fs xok : FsPath → Bool) (sw : String → Option FsPath)
      (runner : List String → FsPath → RunOutcome) (start : FsPath) (task : String)
      (dry : Bool) (mroot : FsPath),
      find_project_root_with fs MAVEN_MARKERS start = some mroot →
      ((TestPy.which_in_dir fs xok sw MAVEN_WRAPPERS mroot = none →
        TestPy.detect_and_run_tests fs xok sw runner start task dry
          = (127, [Event.locate MAVEN_MARKERS, Event.resolve MAVEN_WRAPPERS mroot])) ∧
       (Spotless.which_in_dir fs xok sw MAVEN_WRAPPERS mroot = none →
        Spotless.main fs xok sw runner start
          = (some 127, [Event.locate MAVEN_MARKERS, Event.resolve MAVEN_WRAPPERS mroot]))) := by
  intro fs xok sw runner start task dry mroot h1
  constructor
  · intro h2
    simp [TestPy.detect_and_run_tests, h1, h2]
  · intro h2
    simp [Spotless.main, h1, h2]

/-- Witness for C5: a tree with only /pom.xml, no executable anywhere
and an empty search path gives 127 from both orchestrators with a trace
that never touches Gradle and never launches. -/
theorem maven_tool_missing_aborts_witness :
    TestPy.detect_and_run_tests (fun p => p == ["pom.xml"]) (fun _ => false) (fun _ => none)
      (fun _ _ => RunOutcome.otherError) [] "test" false
      = (127, [Event.locate MAVEN_MARKERS, Event.resolve MAVEN_WRAPPERS []]) ∧
    Spotless.main (fun p => p == ["pom.xml"]) (fun _ => false) (fun _ => none)
      (fun _ _ => RunOutcome.otherError) []
      = (some 127, [Event.locate MAVEN_MARKERS, Event.resolve MAVEN_WRAPPERS []]) :=
  ⟨(maven_tool_missing_aborts (fun p => p == ["pom.xml"]) (fun _ => false) (fun _ => none)
      (fun _ _ => RunOutcome.otherError) [] "test" false [] (by decide)).1 (by decide),
   (maven_tool_missing_aborts (fun p => p == ["pom.xml"]) (fun _ => false) (fun _ => none)
      (fun _ _ => RunOutcome.otherError) [] "test" false [] (by decide)).2 (by decide)⟩

/-- Claim C6: with no marker of either kind anywhere on the path from
start to the filesystem root, find_project_root_with returns None for
each kind and detect_and_run_tests returns exit status 0 with a trace of
the two location attempts only — no process launched. -/
theorem no_project_found :
    ∀ (fs xok : FsPath → Bool) (sw : String → Option FsPath)
      (runner : List String → FsPath → RunOutcome) (start : FsPath) (task : String)
      (dry : Bool),
      (∀ d, d ≤ start.length → hasMarker fs MAVEN_MARKERS (start.drop d) = false) →
      (∀ d, d ≤ start.length → hasMarker fs GRADLE_MARKERS (start.drop d) = false) →
      find_project_root_with fs MAVEN_MARKERS start = none ∧
      find_project_root_with fs GRADLE_MARKERS start = none ∧
      TestPy.detect_and_run_tests fs xok sw runner start task dry
        = (0, [Event.locate MAVEN_MARKERS, Event.locate GRADLE_MARKERS]) := by
  intro fs xok sw runner start task dry hm hg
  have h1 := find_project_root_with_none fs MAVEN_MARKERS start hm
  have h2 := find_project_root_with_none fs GRADLE_MARKERS start hg
  refine ⟨h1, h2, ?_⟩
  simp [TestPy.detect_and_run_tests, h1, h2]

/-- Witness for C6: starting at /app over an empty filesystem, both
locators return None and the program exits 0 without launching. -/
theorem no_project_found_witness :
    find_project_root_with (fun _ => false) MAVEN_MARKERS ["app"] = none ∧
    find_project_root_with (fun _ => false) GRADLE_MARKERS ["app"] = none ∧
    TestPy.detect_and_run_tests (fun _ => false) (fun _ => false) (fun _ => none)
      (fun _ _ => RunOutcome.otherError) ["app"] "test" false
      = (0, [Event.locate MAVEN_MARKERS, Event.locate GRADLE_MARKERS]) :=
  no_project_found (fun _ => false) (fun _ => false) (fun _ => none)
    (fun _ _ => RunOutcome.otherError) ["app"] "test" false
    (by intro d hd; simp [hasMarker])
    (by intro d hd; simp [hasMarker])

/-- Claim C7: in test.py, whenever a root is located and a tool
resolves, dry-run mode returns exit status 0 with a trace that records
the printed command and working directory and contains no launch. -/
theorem dry_run_prints :
    ∀ (fs xok : FsPath → Bool) (sw : String → Option FsPath)
      (runner : List String → FsPath → RunOutcome) (start : FsPath) (task : String),
      (∀ mroot mvn, find_project_root_with fs MAVEN_MARKERS start = some mroot →
        TestPy.which_in_dir fs xok sw MAVEN_WRAPPERS mroot = some mvn →
        TestPy.detect_and_run_tests fs xok sw runner start task true
          = (0, [Event.locate MAVEN_MARKERS, Event.resolve MAVEN_WRAPPERS mroot,
                 Event.dryPrint [pathToString mvn, task] mroot])) ∧
      (∀ groot g, find_project_root_with fs MAVEN_MARKERS start = none →
        find_project_root_with fs GRADLE_MARKERS start = some groot →
        TestPy.which_in_dir fs xok sw GRADLE_WRAPPERS groot = some g →
        TestPy.detect_and_run_tests fs xok sw runner start task true
          = (0, [Event.locate MAVEN_MARKERS, Event.locate GRADLE_MARKERS,
                 Event.resolve GRADLE_WRAPPERS groot,
                 Event.dryPrint [pathToString g, task] groot])) := by
  intro fs xok sw runner start task
  constructor
  · intro mroot mvn h1 h2
    simp [TestPy.detect_and_run_tests, h1, h2]
  · intro groot g h1 h2 h3
    simp [TestPy.detect_and_run_tests, h1, h2, h3]

/-- Witness for C7: a Gradle project at / with an executable /gradlew in
dry-run mode exits 0, printing the command; a Maven project likewise. -/
theorem dry_run_prints_witness :
    TestPy.detect_and_run_tests (fun p => p == ["build.gradle"] || p == ["gradlew"])
      (fun p => p == ["gradlew"]) (fun _ => none) (fun _ _ => RunOutcome.otherError)
      [] "test" true
      = (0, [Event.locate MAVEN_MARKERS, Event.locate GRADLE_MARKERS,
             Event.resolve GRADLE_WRAPPERS [],
             Event.dryPrint [pathToString ["gradlew"], "test"] []]) ∧
    TestPy.detect_and_run_tests (fun p => p == ["pom.xml"] || p == ["mvnw"])
      (fun p => p == ["mvnw"]) (fun _ => none) (fun _ _ => RunOutcome.otherError)
      [] "test" true
      = (0, [Event.locate MAVEN_MARKERS, Event.resolve MAVEN_WRAPPERS [],
             Event.dryPrint [pathToString ["mvnw"], "test"] []]) :=
  ⟨(dry_run_prints (fun p => p == ["build.gradle"] || p == ["gradlew"])
      (fun p => p == ["gradlew"]) (fun _ => none) (fun _ _ => RunOutcome.otherError)
      [] "test").2 [] ["gradlew"] (by decide) (by decide) (by decide),
   (dry_run_prints (fun p => p == ["pom.xml"] || p == ["mvnw"])
      (fun p => p == ["mvnw"]) (fun _ => none) (fun _ _ => RunOutcome.otherError)
      [] "test").1 [] ["mvnw"] (by decide) (by decide)⟩

/-- Claim C8: a successfully launched child that runs to completion has
its own exit status returned unchanged by run_cmd in both scripts and
propagated verbatim as the final status of each orchestrator. -/
theorem child_status_propagated :
    ∀ (fs xok : FsPath → Bool) (sw : String → Option FsPath)
      (runner : List String → FsPath → RunOutcome) (start : FsPath) (task : String)
      (code : Int) (mroot mvn : FsPath),
      TestPy.runCmd (RunOutcome.completed code) = code ∧
      Spotless.runCmd (RunOutcome.completed code) = some code ∧
      (find_project_root_with fs MAVEN_MARKERS start = some mroot →
        TestPy.which_in_dir fs xok sw MAVEN_WRAPPERS mroot = some mvn →
        runner [pathToString mvn, task] mroot = RunOutcome.completed code →
        (TestPy.detect_and_run_tests fs xok sw runner start task false).1 = code) ∧
      (find_project_root_with fs MAVEN_MARKERS start = some mroot →
        Spotless.which_in_dir fs xok sw MAVEN_WRAPPERS mroot = some mvn →
        runner [pathToString mvn, "spotless:apply"] mroot = RunOutcome.completed code →
        (Spotless.main fs xok sw runner start).1 = some code) := by
  intro fs xok sw runner start task code mroot mvn
  refine ⟨rfl, rfl, fun h1 h2 h3 => ?_, fun h1 h2 h3 => ?_⟩
  · simp [TestPy.detect_and_run_tests, h1, h2, h3, TestPy.runCmd]
  · simp [Spotless.main, h1, h2, h3, Spotless.runCmd]

/-- Witness for C8: a child exiting with status 42 in the Maven tree
with executable /mvnw makes both programs finish with status 42. -/
theorem child_status_propagated_witness :
    (TestPy.detect_and_run_tests (fun p => p == ["pom.xml"] || p == ["mvnw"])
      (fun p => p == ["mvnw"]) (fun _ => none) (fun _ _ => RunOutcome.completed 42)
      [] "test" false).1 = 42 ∧
    (Spotless.main (fun p => p == ["pom.xml"] || p == ["mvnw"])
      (fun p => p == ["mvnw"]) (fun _ => none) (fun _ _ => RunOutcome.completed 42) []).1
      = some 42 :=
  ⟨(child_status_propagated (fun p => p == ["pom.xml"] || p == ["mvnw"])
      (fun p => p == ["mvnw"]) (fun _ => none) (fun _ _ => RunOutcome.completed 42)
      [] "test" 42 [] ["mvnw"]).2.2.1 (by decide) (by decide) (by decide),
   (child_status_propagated (fun p => p == ["pom.xml"] || p == ["mvnw"])
      (fun p => p == ["mvnw"]) (fun _ => none) (fun _ _ => RunOutcome.completed 42)
      [] "test" 42 [] ["mvnw"]).2.2.2 (by decide) (by decide) (by decide)⟩

/-- Claim C10: in test.py, tool resolution precedes the dry-run check:
when a root is located but no tool resolves, the program returns 127
even with dry-run set, never the dry-run success path. -/
theorem dry_run_tool_missing :
    ∀ (fs xok : FsPath → Bool) (sw : String → Option FsPath)
      (runner : List String → FsPath → RunOutcome) (start : FsPath) (task : String),
      (∀ mroot, find_project_root_with fs MAVEN_MARKERS start = some mroot →
        TestPy.which_in_dir fs xok sw MAVEN_WRAPPERS mroot = none →
        TestPy.detect_and_run_tests fs xok sw runner start task true
          = (127, [Event.locate MAVEN_MARKERS, Event.resolve MAVEN_WRAPPERS mroot])) ∧
      (∀ groot, find_project_root_with fs MAVEN_MARKERS start = none →
        find_project_root_with fs GRADLE_MARKERS start = some groot →
        TestPy.which_in_dir fs xok sw GRADLE_WRAPPERS groot = none →
        TestPy.detect_and_run_tests fs xok sw runner start task true
          = (127, [Event.locate MAVEN_MARKERS, Event.locate GRADLE_MARKERS,
                   Event.resolve GRADLE_WRAPPERS groot])) := by
  intro fs xok sw runner start task
  constructor
  · intro mroot h1 h2
    simp [TestPy.detect_and_run_tests, h1, h2]
  · intro groot h1 h2 h3
    simp [TestPy.detect_and_run_tests, h1, h2, h3]

/-- Witness for C10: a tree with only /build.gradle.kts and nothing
resolvable gives 127 from test.py although dry-run is set. -/
theorem dry_run_tool_missing_witness :
    TestPy.detect_and_run_tests (fun p => p == ["build.gradle.kts"]) (fun _ => false)
      (fun _ => none) (fun _ _ => RunOutcome.otherError) [] "test" true
      = (127, [Event.locate MAVEN_MARKERS, Event.locate GRADLE_MARKERS,
               Event.resolve GRADLE_WRAPPERS []]) :=
  (dry_run_tool_missing (fun p => p == ["build.gradle.kts"]) (fun _ => false)
    (fun _ => none) (fun _ _ => RunOutcome.otherError) [] "test").2 []
    (by decide) (by decide) (by decide)
